import Mathlib

/-!
# UI_Scout: the asynchronous orchestration core

A shallow embedding of the event handlers of `src/Pages/ScoutDrone.jsx` and
`src/RosSidebar.jsx`.

* React state is an explicit record; every `setX(v)` is a field update of the
  mounted component (a setter called after the unmount is discarded).
* An `async` handler is a pure function of the state captured when it is
  called and of the outcomes the network delivers to its `await`s; it returns
  the final state together with the ordered trace of its observable effects
  (terminal appends and issued requests).  The order of the trace is the
  order in which the source performs the effects.
* What the browser, the backend and `roslib` decide is an input of the
  model: fetch outcomes, parsed payloads, delivered events.
-/

namespace UIScout

/-! ## Values and network outcomes -/

/-- A JavaScript value stored in a flight-parameter field: a number, a
string (raw text) or a boolean. -/
inductive JsValue where
  | num (x : Rat)
  | str (s : String)
  | bool (b : Bool)
  deriving DecidableEq, Repr

/-- Outcome of `await response.json()`: `failed message` when `json()`
rejects (unparseable body), `value v` when it gives `v`.  In the handlers
whose first use of the parsed value is a property read (`uploadResult.message`,
`ros2Result.status`, `result.status`) a body that parses to `null` throws at
that read, before any further effect, and is `failed` as well; `message` is
the `message` of the exception. -/
inductive Parsed (β : Type) where
  | failed (message : String)
  | value (v : β)
  deriving DecidableEq, Repr

/-- Outcome of `await fetch(...)`: the promise rejects (transport failure,
`message` is `error.message`) or resolves to a response with its `ok` flag,
its `statusText` and what `response.json()` would give. -/
inductive Fetched (β : Type) where
  | rejected (message : String)
  | response (ok : Bool) (statusText : String) (body : Parsed β)
  deriving DecidableEq, Repr

/-- A file of the selection (`File.name`, `File.size`). -/
structure File where
  name : String
  size : Nat
  deriving DecidableEq, Repr

/-- The `flightParams` record of `ScoutDrone` (lines 15-22). -/
structure FlightParams where
  line_spacing : JsValue
  flight_altitude : JsValue
  flight_velocity : JsValue
  fence_buffer : JsValue
  optimize_angle : JsValue
  angle : JsValue
  deriving DecidableEq, Repr

/-- The object `{ ...flightParams, kml_file: filename }` (lines 256-259). -/
structure WaypointParams extends FlightParams where
  kml_file : String
  deriving DecidableEq, Repr

/-- The object `{ filename, params }` given to `JSON.stringify` for
`/generate_waypoint` (lines 254-260). -/
structure WaypointBody where
  filename : String
  params : WaypointParams
  deriving DecidableEq, Repr

/-- Body of an issued request, before serialisation. -/
inductive RequestBody where
  | none
  | formData (kmlFiles : List File)
  | waypoint (body : WaypointBody)
  | command (command : String)
  deriving DecidableEq, Repr

/-- A call of `fetch(url, { method, body })`. -/
structure Request where
  url : String
  method : String
  body : RequestBody
  deriving DecidableEq, Repr

/-- An observable effect of a handler, in the order the source performs it. -/
inductive Effect where
  | log (message : String)
  | fetch (request : Request)
  deriving DecidableEq, Repr

/-- The parsed body of `/upload-kml`: `uploadResult.message` and
`uploadResult.uploadedFileNames`; the latter is `Except.error message` when
the value is not iterable, so that `for ... of` throws. -/
structure UploadResult where
  message : String
  uploadedFileNames : Except String (List String)

/-- The parsed body of `/generate_waypoint`: `ros2Result.status`. -/
structure Ros2Result where
  status : String
  deriving DecidableEq, Repr

/-- The parsed body of `/send_mission_command`: `result.status` and
`result.message`. -/
structure CommandResult where
  status : String
  message : String
  deriving DecidableEq, Repr

/-! ## Component state -/

/-- The `useState` cells of `ScoutDrone` that the handlers below read or
write (lines 7-22). -/
structure State where
  terminalOutput : String
  showUploadModal : Bool
  selectedFiles : List File
  missionLoading : Bool
  uploadingKML : Bool
  kmlUploadMessage : String
  flightParams : FlightParams
  deriving DecidableEq, Repr

/-- Initial values of the `useState` cells (lines 7-22). -/
def State.initial : State where
  terminalOutput := "Ready to process AI detection..."
  showUploadModal := false
  selectedFiles := []
  missionLoading := false
  uploadingKML := false
  kmlUploadMessage := ""
  flightParams :=
    { line_spacing := .num 20
      flight_altitude := .num 30
      flight_velocity := .num 4
      fence_buffer := .num 5
      optimize_angle := .bool true
      angle := .num 90 }

/-- A handler run in progress: the state so far and the effects so far. -/
structure Run where
  state : State
  trace : List Effect
  deriving DecidableEq, Repr

/-- `appendToTerminal(message)` (lines 52-54):
`setTerminalOutput(prev => prev + '\n' + message)`. -/
def appendToTerminal (message : String) (r : Run) : Run :=
  { state := { r.state with terminalOutput := r.state.terminalOutput ++ "\n" ++ message }
    trace := r.trace ++ [Effect.log message] }

/-- Issuing `fetch(url, init)`. -/
def issue (request : Request) (r : Run) : Run :=
  { r with trace := r.trace ++ [Effect.fetch request] }

/-! ## `uploadKMLFiles` (lines 218-282) -/

/-- The request of lines 234-237. -/
def uploadRequest (selectedFiles : List File) : Request :=
  { url := "http://127.0.0.1:9080/upload-kml", method := "POST",
    body := .formData selectedFiles }

/-- The request of lines 251-261. -/
def generateWaypointRequest (flightParams : FlightParams) (filename : String) : Request :=
  { url := "http://127.0.0.1:9080/generate_waypoint", method := "POST",
    body := .waypoint
      { filename := filename
        params := { toFlightParams := flightParams, kml_file := filename } } }

/-- The inner `catch (ros2Error)` of lines 268-270. -/
def ros2Catch (filename message : String) (r : Run) : Run :=
  appendToTerminal ("❌ Error sending ROS2 message for " ++ filename ++ ": " ++ message) r

/-- One iteration of the `for ... of` loop (lines 249-270). -/
def waypointStep (flightParams : FlightParams) (filename : String)
    (result : Fetched Ros2Result) (r : Run) : Run :=
  let r := appendToTerminal ("Sending ROS2 message for KML: " ++ filename ++ "...") r
  let r := issue (generateWaypointRequest flightParams filename) r
  match result with
  | .rejected message => ros2Catch filename message r
  | .response false statusText _ =>
      ros2Catch filename ("Failed to send ROS2 message for " ++ filename ++ ": " ++ statusText) r
  | .response true _ (.failed message) => ros2Catch filename message r
  | .response true _ (.value ros2Result) =>
      appendToTerminal ("✅ ROS2 message sent for " ++ filename ++ ": " ++ ros2Result.status) r

/-- The loop of lines 248-271; `wp i` is the outcome the network gives to the
request of iteration `i`. -/
def waypointLoop (flightParams : FlightParams) (wp : Nat → Fetched Ros2Result) :
    Nat → List String → Run → Run
  | _, [], r => r
  | i, filename :: rest, r =>
      waypointLoop flightParams wp (i + 1) rest (waypointStep flightParams filename (wp i) r)

/-- The outer `catch (error)` of lines 276-278. -/
def uploadCatch (message : String) (r : Run) : Run :=
  let r := appendToTerminal ("❌ KML upload failed: " ++ message) r
  { r with state := { r.state with kmlUploadMessage := "Upload failed: " ++ message } }

/-- The `finally` of lines 279-281. -/
def uploadFinally (r : Run) : Run :=
  { r with state := { r.state with uploadingKML := false } }

/-- `uploadKMLFiles` (lines 218-282), called in state `s`; `upload` is the
outcome of the `/upload-kml` request and `wp i` the outcome of the `i`-th
`/generate_waypoint` request. -/
def uploadKMLFiles (upload : Fetched UploadResult) (wp : Nat → Fetched Ros2Result)
    (s : State) : Run :=
  if s.selectedFiles.length = 0 then
    { state := { s with kmlUploadMessage := "Please select KML files to upload." }
      trace := [] }
  else
    let r : Run := { state := s, trace := [] }
    let r := { r with state := { r.state with uploadingKML := true } }
    let r := { r with state := { r.state with kmlUploadMessage := "Uploading KML files..." } }
    let r := appendToTerminal "⬆️ Starting KML file upload..." r
    let r := issue (uploadRequest s.selectedFiles) r
    uploadFinally <|
      match upload with
      | .rejected message => uploadCatch message r
      | .response false statusText _ => uploadCatch ("KML upload failed: " ++ statusText) r
      | .response true _ (.failed message) => uploadCatch message r
      | .response true _ (.value uploadResult) =>
          let r := appendToTerminal ("✅ KML upload successful: " ++ uploadResult.message) r
          let r := { r with state :=
            { r.state with kmlUploadMessage := "KML files uploaded successfully!" } }
          match uploadResult.uploadedFileNames with
          | .error message => uploadCatch message r
          | .ok names =>
              let r := waypointLoop s.flightParams wp 0 names r
              let r := { r with state := { r.state with showUploadModal := false } }
              { r with state := { r.state with selectedFiles := [] } }

/-- The requests of a trace that go to `/generate_waypoint`. -/
def waypointRequests (trace : List Effect) : List Request :=
  trace.filterMap fun e =>
    match e with
    | .fetch request =>
        if request.url = "http://127.0.0.1:9080/generate_waypoint" then some request else none
    | .log _ => none

/-- The terminal entries of a trace, in order. -/
def logEntries (trace : List Effect) : List String :=
  trace.filterMap fun e =>
    match e with
    | .log message => some message
    | .fetch _ => none

/-- The outcome entry of one file, by cases on what the network gave to its
request: the success entry when the response is OK and its body parses, an
error entry otherwise. -/
def ros2OutcomeEntry (filename : String) : Fetched Ros2Result → String
  | .response true _ (.value ros2Result) =>
      "✅ ROS2 message sent for " ++ filename ++ ": " ++ ros2Result.status
  | .response true _ (.failed message) =>
      "❌ Error sending ROS2 message for " ++ filename ++ ": " ++ message
  | .response false statusText _ =>
      "❌ Error sending ROS2 message for " ++ filename ++ ": " ++
        ("Failed to send ROS2 message for " ++ filename ++ ": " ++ statusText)
  | .rejected message =>
      "❌ Error sending ROS2 message for " ++ filename ++ ": " ++ message

/-- The three effects of one file, in order: the announcement, the request,
the outcome entry. -/
def perFileEffects (flightParams : FlightParams) (wp : Nat → Fetched Ros2Result)
    (indexed : Nat × String) : List Effect :=
  [ .log ("Sending ROS2 message for KML: " ++ indexed.2 ++ "..."),
    .fetch
      { url := "http://127.0.0.1:9080/generate_waypoint", method := "POST",
        body := .waypoint
          { filename := indexed.2
            params := { toFlightParams := flightParams, kml_file := indexed.2 } } },
    .log (ros2OutcomeEntry indexed.2 (wp indexed.1)) ]

/-- A selection of two files, the modal open, everything else as initially. -/
def State.twoFiles : State :=
  { State.initial with
    showUploadModal := true
    selectedFiles := [{ name := "field1.kml", size := 10 }, { name := "field2.kml", size := 20 }] }

/-- The first waypoint request fails in transport, every later one succeeds. -/
def firstFails : Nat → Fetched Ros2Result
  | 0 => .rejected "Failed to fetch"
  | _ => .response true "OK" (.value { status := "success" })

/-! ## `fetchImageInfo` (lines 142-162) and the detection card (lines 413-428) -/

/-- The two string operations of the JavaScript runtime that the overlay
uses: `String.prototype.toUpperCase` and the string conversion that a
template literal applies to a value of the response mapping. -/
structure JsRuntime (V : Type) where
  toUpperCase : String → String
  toStr : V → String

/-- What `response.json()` gives for `/get-image-info`: `null` (on which
`Object.keys` throws), or any other value, given by `Object.entries(data)`,
its own enumerable entries in enumeration order (`Object.keys(data)` being
their keys). -/
inductive Payload (V : Type) where
  | null
  | entries (kv : List (String × V))
  deriving DecidableEq, Repr

/-- The `.detection-overlay` element given to `fetchImageInfo`:
`dataset.loaded` and `innerHTML`. -/
structure Overlay where
  loaded : String
  innerHTML : String
  deriving DecidableEq, Repr

/-- The overlay as the card is rendered (lines 426-428). -/
def Overlay.initial : Overlay where
  loaded := "false"
  innerHTML := "<div class=\"loading-spinner\">Loading detection data...</div>"

/-- The placeholder of line 151. -/
def noDataHtml : String := "<div class=\"no-data\">No detection data available</div>"

/-- The placeholder of line 160. -/
def errorHtml : String := "<div class=\"error\">Failed to load detection info</div>"

/-- The call `key.replace(/_/g, ' ')` of line 155. -/
def replaceUnderscores (key : String) : String :=
  ⟨key.data.map fun c => if c = '_' then ' ' else c⟩

/-- The value of `displayKey` (line 155). -/
def displayKey {V : Type} (rt : JsRuntime V) (key : String) : String :=
  rt.toUpperCase (replaceUnderscores key)

/-- The row of line 156. -/
def infoRow {V : Type} (rt : JsRuntime V) (entry : String × V) : String :=
  "<div class=\"info-row\"><span class=\"key\">" ++ displayKey rt entry.1 ++
    ":</span> <span class=\"value\">" ++ rt.toStr entry.2 ++ "</span></div>"

/-- The expression of lines 150-158 on a value that is not `null`. -/
def overlayHtml {V : Type} (rt : JsRuntime V) (kv : List (String × V)) : String :=
  if kv.length = 0 then noDataHtml
  else String.join ((kv.filter fun entry => entry.1 ≠ "Crop Path").map (infoRow rt))

/-- The request of line 146 (`fetch(url)`, a GET without body). -/
def imageInfoRequest (imageName : String) : Request :=
  { url := "http://127.0.0.1:9080/get-image-info/" ++ imageName, method := "GET",
    body := .none }

/-- The part of `fetchImageInfo` after `await fetch` (lines 147-161). The
`ok` flag of the response is not read. -/
def fetchImageInfoResume {V : Type} (rt : JsRuntime V) (outcome : Fetched (Payload V))
    (overlayRef : Overlay) : Overlay :=
  match outcome with
  | .rejected _ => { overlayRef with innerHTML := errorHtml }
  | .response _ _ (.failed _) => { overlayRef with innerHTML := errorHtml }
  | .response _ _ (.value data) =>
      let overlayRef := { overlayRef with loaded := "true" }
      match data with
      | .null => { overlayRef with innerHTML := errorHtml }
      | .entries kv => { overlayRef with innerHTML := overlayHtml rt kv }

/-- One whole call of `fetchImageInfo(imageName, overlayRef)` whose fetch
ends in `outcome`: the overlay afterwards and the requests issued. -/
def fetchImageInfo {V : Type} (rt : JsRuntime V) (imageName : String)
    (outcome : Fetched (Payload V)) (overlayRef : Overlay) : Overlay × List Request :=
  if overlayRef.loaded = "true" then (overlayRef, [])
  else (fetchImageInfoResume rt outcome overlayRef, [imageInfoRequest imageName])

/-- What happens to one detection card: the pointer enters it
(`onMouseEnter` calls `fetchImageInfo`, lines 417-420), or the fetch of an
earlier call that is still in flight ends in `outcome`. -/
inductive CardEvent (V : Type) where
  | pointerEnter
  | resolve (outcome : Fetched (Payload V))

/-- One card with its calls of `fetchImageInfo`: the overlay, the number of
calls suspended at `await fetch`, the requests issued so far and the outcomes
delivered so far. -/
structure Card (V : Type) where
  overlay : Overlay
  inFlight : Nat
  issued : List Request
  delivered : List (Fetched (Payload V))

/-- A card as first rendered. -/
def Card.initial (V : Type) : Card V where
  overlay := Overlay.initial
  inFlight := 0
  issued := []
  delivered := []

/-- One event on the card of image `imageName`.  All suspended calls have the
same continuation, so which one resumes does not matter; a `resolve` with no
call in flight cannot happen and is ignored. -/
def Card.step {V : Type} (rt : JsRuntime V) (imageName : String) (c : Card V) :
    CardEvent V → Card V
  | .pointerEnter =>
      if c.overlay.loaded = "true" then c
      else { c with inFlight := c.inFlight + 1, issued := c.issued ++ [imageInfoRequest imageName] }
  | .resolve outcome =>
      if c.inFlight = 0 then c
      else
        { c with
          overlay := fetchImageInfoResume rt outcome c.overlay
          inFlight := c.inFlight - 1
          delivered := c.delivered ++ [outcome] }

/-- A sequence of events on a card. -/
def Card.run {V : Type} (rt : JsRuntime V) (imageName : String) (c : Card V)
    (events : List (CardEvent V)) : Card V :=
  events.foldl (Card.step rt imageName) c

/-- A fetch succeeded: a response arrived and its body parsed. -/
def fetchSucceeded {V : Type} : Fetched (Payload V) → Bool
  | .response _ _ (.value _) => true
  | _ => false

/-- Number of fetches of the card that succeeded. -/
def Card.successes {V : Type} (c : Card V) : Nat :=
  (c.delivered.filter fetchSucceeded).length

/-- Every pointer-enter of `events` arrives when no earlier fetch of the card
is still in flight. -/
def Card.sequential {V : Type} (rt : JsRuntime V) (imageName : String) :
    Card V → List (CardEvent V) → Bool
  | _, [] => true
  | c, .pointerEnter :: rest =>
      c.inFlight == 0 && Card.sequential rt imageName (c.step rt imageName .pointerEnter) rest
  | c, .resolve outcome :: rest =>
      Card.sequential rt imageName (c.step rt imageName (.resolve outcome)) rest

/-- At most one of "a fetch has succeeded" and "a fetch is in flight", and
once a fetch has succeeded the flag is `"true"`. -/
def Card.Settled {V : Type} (c : Card V) : Prop :=
  c.successes + c.inFlight ≤ 1 ∧ (c.successes = 1 → c.overlay.loaded = "true")

/-- A runtime for mappings whose values are strings: upper-casing of the
ASCII letters and the identity conversion. -/
def JsRuntime.ascii : JsRuntime String where
  toUpperCase := fun s => ⟨s.data.map Char.toUpper⟩
  toStr := id

/-- A response mapping with a hidden path entry between two shown ones. -/
def sampleInfo : List (String × String) :=
  [("class_name", "car"), ("Crop Path", "/tmp/crops/1.jpg"), ("conf", "0.9")]

/-! ## The command dispatcher: `sendDroneCommand` (lines 285-302) and
`startMission` (lines 116-139) -/

/-- The request of lines 121-125 and 288-292. -/
def missionCommandRequest (command : String) : Request :=
  { url := "http://127.0.0.1:9080/send_mission_command", method := "POST",
    body := .command command }

/-- `sendDroneCommand(command)` called in state `s`, its fetch ending in
`outcome`.  The `ok` flag of the response is not read. -/
def sendDroneCommand (command : String) (outcome : Fetched CommandResult) (s : State) : Run :=
  let r : Run := { state := s, trace := [] }
  let r := appendToTerminal ("Sending drone command: " ++ command ++ "...") r
  let r := issue (missionCommandRequest command) r
  match outcome with
  | .rejected message =>
      appendToTerminal ("❌ Error sending drone command '" ++ command ++ "': " ++ message) r
  | .response _ _ (.failed message) =>
      appendToTerminal ("❌ Error sending drone command '" ++ command ++ "': " ++ message) r
  | .response _ _ (.value result) =>
      if result.status = "success" then
        appendToTerminal ("✅ Drone command '" ++ command ++ "' successful: " ++ result.message) r
      else
        appendToTerminal ("❌ Drone command '" ++ command ++ "' failed: " ++ result.message) r

/-- `startMission()` called in state `s`, its fetch ending in `outcome`. -/
def startMission (outcome : Fetched CommandResult) (s : State) : Run :=
  let r : Run := { state := { s with missionLoading := true }, trace := [] }
  let r := appendToTerminal "🎯 Starting mission...\n" r
  let r := issue (missionCommandRequest "mission_start") r
  let r :=
    match outcome with
    | .rejected message => appendToTerminal ("❌ Error starting mission: " ++ message) r
    | .response _ _ (.failed message) =>
        appendToTerminal ("❌ Error starting mission: " ++ message) r
    | .response _ _ (.value result) =>
        if result.status = "success" then
          appendToTerminal ("✅ Mission started successfully!\n" ++ result.message) r
        else
          appendToTerminal ("❌ Mission start failed: " ++ result.message) r
  { r with state := { r.state with missionLoading := false } }

/-- The command tags of the dispatcher. -/
inductive Command where
  | arm
  | disarm
  | rtl
  | land
  | mission_start
  deriving DecidableEq, Repr

/-- The tag sent on the wire. -/
def Command.tag : Command → String
  | .arm => "arm"
  | .disarm => "disarm"
  | .rtl => "rtl"
  | .land => "land"
  | .mission_start => "mission_start"

/-- What the user interface calls for each command: the four buttons of the
drone-control modal call `sendDroneCommand` (lines 620-638), the mission
button calls `startMission` (line 330). -/
def dispatch (c : Command) (outcome : Fetched CommandResult) (s : State) : Run :=
  match c with
  | .mission_start => startMission outcome s
  | c => sendDroneCommand c.tag outcome s

/-- The text `needle` occurs in `text`. -/
def Mentions (text needle : String) : Prop :=
  needle.data <:+: text.data

instance (text needle : String) : Decidable (Mentions text needle) :=
  inferInstanceAs (Decidable (needle.data <:+: text.data))

/-! ## `RosSidebar` (`src/RosSidebar.jsx`) -/

/-- The `useState` cells of `RosSidebar` (lines 7-9). -/
structure Snapshot where
  battery : Option Rat
  mode : Option String
  rosConnected : Bool
  deriving DecidableEq, Repr

/-- Initial values of the cells (lines 7-9). -/
def Snapshot.initial : Snapshot where
  battery := none
  mode := none
  rosConnected := false

/-- The events of the `ROSLIB.Ros` connection that the component listens to. -/
inductive RosEvent where
  | connection
  | error
  | close
  deriving DecidableEq, Repr

/-- What `roslib` can deliver to the component: an event of the connection,
a message on `/mavros/battery` (its `percentage`) or a message on
`/mavros/state` (its `mode`). -/
inductive Delivery where
  | ros (event : RosEvent)
  | battery (percentage : Rat)
  | state (mode : String)
  deriving DecidableEq, Repr

/-- The three listeners given to `ros.on` (lines 16-28); `console.log` and
`console.error` are not modelled. -/
def onRos : RosEvent → Snapshot → Snapshot
  | .connection, s => { s with rosConnected := true }
  | .error, s => s
  | .close, s => { s with rosConnected := false }

/-- The callback given to `batteryListener.subscribe` (lines 42-44). -/
def onBattery (percentage : Rat) (s : Snapshot) : Snapshot :=
  { s with battery := some percentage }

/-- The callback given to `stateListener.subscribe` (lines 46-48). -/
def onState (mode : String) (s : Snapshot) : Snapshot :=
  { s with mode := some mode }

/-- The callback that a delivery runs in the mounted component. -/
def handle (s : Snapshot) : Delivery → Snapshot
  | .ros event => onRos event s
  | .battery percentage => onBattery percentage s
  | .state mode => onState mode s

/-- The snapshot of the mounted component after a sequence of deliveries. -/
def runDeliveries (s : Snapshot) (events : List Delivery) : Snapshot :=
  events.foldl handle s

/-- A call the component makes on `roslib`. -/
inductive RosCall where
  | newRos (url : String)
  | on (event : RosEvent)
  | newTopic (name messageType : String)
  | subscribe (topic : String)
  | unsubscribe (topic : String)
  | close
  deriving DecidableEq, Repr

/-- The calls of the effect body, in source order (lines 12-48). -/
def mountCalls : List RosCall :=
  [ .newRos "ws://localhost:9090",
    .on .connection,
    .on .error,
    .on .close,
    .newTopic "/mavros/battery" "sensor_msgs/BatteryState",
    .newTopic "/mavros/state" "mavros_msgs/State",
    .subscribe "/mavros/battery",
    .subscribe "/mavros/state" ]

/-- The calls of the cleanup function, in source order (lines 50-54). -/
def cleanupCalls : List RosCall :=
  [ .unsubscribe "/mavros/battery", .unsubscribe "/mavros/state", .close ]

/-- The `roslib` objects of one component as its calls leave them: the
listeners registered on the connection with `ros.on`, and the topics that
hold a subscribed callback. -/
structure Registry where
  listeners : List RosEvent
  subscribed : List String
  deriving DecidableEq, Repr

/-- The effect of one call on the registry: `on` adds a listener,
`subscribe` adds the topic's callback, `unsubscribe()` without argument
removes the topic's callbacks.  `close()` closes the socket and removes no
listener (the source never calls `ros.off`). -/
def Registry.apply (g : Registry) : RosCall → Registry
  | .on event => { g with listeners := g.listeners ++ [event] }
  | .subscribe topic => { g with subscribed := g.subscribed ++ [topic] }
  | .unsubscribe topic => { g with subscribed := g.subscribed.filter fun t => t ≠ topic }
  | .newRos _ => g
  | .newTopic _ _ => g
  | .close => g

/-- The component with its `roslib` objects: whether it is mounted, its
state cells, the registry, the calls it has made on `roslib` and the
deliveries for which a callback of the component has run. -/
structure Sidebar where
  mounted : Bool
  snapshot : Snapshot
  registry : Registry
  calls : List RosCall
  ran : List Delivery
  deriving DecidableEq, Repr

/-- Before the component is mounted and its effect has run. -/
def Sidebar.initial : Sidebar where
  mounted := false
  snapshot := Snapshot.initial
  registry := { listeners := [], subscribed := [] }
  calls := []
  ran := []

/-- A step in the life of the component. -/
inductive LifeEvent where
  | mount
  | unmount
  | deliver (d : Delivery)
  deriving DecidableEq, Repr

/-- Performing a list of calls. -/
def Sidebar.perform (c : Sidebar) (calls : List RosCall) : Sidebar :=
  { c with registry := calls.foldl Registry.apply c.registry, calls := c.calls ++ calls }

/-- A callback of the component runs for delivery `d`.  Its state setter
(`setRosConnected`, `setBattery`, `setMode`) takes effect while the component
is mounted; React discards a setter called after the unmount, the state cells
of the component being gone. -/
def Sidebar.invoke (c : Sidebar) (d : Delivery) : Sidebar :=
  { c with
    ran := c.ran ++ [d]
    snapshot := if c.mounted then handle c.snapshot d else c.snapshot }

/-- One step: mounting runs the effect body (`useEffect` with `[]`, lines
11-55), unmounting runs the cleanup it returned, and a delivery runs the
callback registered for it, if there is one. -/
def Sidebar.step (c : Sidebar) : LifeEvent → Sidebar
  | .mount => { c.perform mountCalls with mounted := true }
  | .unmount => { c.perform cleanupCalls with mounted := false }
  | .deliver (.ros event) =>
      if event ∈ c.registry.listeners then c.invoke (.ros event) else c
  | .deliver (.battery percentage) =>
      if "/mavros/battery" ∈ c.registry.subscribed then c.invoke (.battery percentage) else c
  | .deliver (.state mode) =>
      if "/mavros/state" ∈ c.registry.subscribed then c.invoke (.state mode) else c

/-- A sequence of steps. -/
def Sidebar.run (c : Sidebar) (events : List LifeEvent) : Sidebar :=
  events.foldl Sidebar.step c

/-- The delivery is an event of the connection, not a topic message. -/
def Delivery.isRos : Delivery → Bool
  | .ros _ => true
  | _ => false

/-! ## The form handlers: `handleParamChange` (lines 187-192),
`handleFileChange` (lines 195-199) and `handleDrop` (lines 209-215) -/

/-- The two global functions of the JavaScript runtime that
`handleParamChange` calls: `isNaN(value)` and `Number(value)`. -/
structure JsGlobals where
  isNaN : JsValue → Bool
  Number : JsValue → JsValue

/-- The six names `handleParamChange` is called with (lines 483-529). -/
inductive ParamName where
  | line_spacing
  | flight_altitude
  | flight_velocity
  | fence_buffer
  | optimize_angle
  | angle
  deriving DecidableEq, Repr

/-- The property read `flightParams[name]`. -/
def FlightParams.get (p : FlightParams) : ParamName → JsValue
  | .line_spacing => p.line_spacing
  | .flight_altitude => p.flight_altitude
  | .flight_velocity => p.flight_velocity
  | .fence_buffer => p.fence_buffer
  | .optimize_angle => p.optimize_angle
  | .angle => p.angle

/-- The object `{ ...prev, [paramName]: x }` (lines 188-191). -/
def FlightParams.set (prev : FlightParams) (paramName : ParamName) (x : JsValue) :
    FlightParams :=
  match paramName with
  | .line_spacing => { prev with line_spacing := x }
  | .flight_altitude => { prev with flight_altitude := x }
  | .flight_velocity => { prev with flight_velocity := x }
  | .fence_buffer => { prev with fence_buffer := x }
  | .optimize_angle => { prev with optimize_angle := x }
  | .angle => { prev with angle := x }

/-- `handleParamChange(paramName, value)` (lines 187-192). -/
def handleParamChange (js : JsGlobals) (paramName : ParamName) (value : JsValue)
    (s : State) : State :=
  { s with
    flightParams :=
      s.flightParams.set paramName
        (if paramName = ParamName.optimize_angle then value
         else if js.isNaN value then value else js.Number value) }

/-- The two globals on booleans, numbers, the empty string and strings of
decimal digits, where they are what JavaScript computes (`Number(true)` is 1,
`Number("")` is 0, `Number("45")` is 45); every other string counts as not
numeric here. -/
def JsGlobals.digits : JsGlobals where
  isNaN := fun v =>
    match v with
    | .str text => !(text.data.all Char.isDigit)
    | _ => false
  Number := fun v =>
    match v with
    | .str text => .num ((text.data.foldl (fun n c => 10 * n + (c.toNat - 48)) 0 : Nat) : Rat)
    | .bool b => .num (if b then 1 else 0)
    | .num x => .num x

/-- The call `s.endsWith(searchString)`. -/
def endsWith (s searchString : String) : Bool :=
  searchString.data.isSuffixOf s.data

/-- `handleFileChange(event)` (lines 195-199); `picked` is
`Array.from(event.target.files)`. -/
def handleFileChange (picked : List File) (s : State) : State :=
  let files := picked
  { s with
    selectedFiles := files
    kmlUploadMessage :=
      if files.length > 0 then toString files.length ++ " file(s) selected." else "" }

/-- `handleDrop(event)` (lines 209-215); `dropped` is
`Array.from(event.dataTransfer.files)`. -/
def handleDrop (dropped : List File) (s : State) : State :=
  let files := dropped.filter fun file => endsWith file.name ".kml"
  { s with
    selectedFiles := files
    kmlUploadMessage :=
      if files.length > 0 then toString files.length ++ " KML file(s) selected."
      else "No KML files dropped." }

/-- Four dropped files, two of them with a name that ends in `.kml`. -/
def droppedFiles : List File :=
  [ { name := "north.kml", size := 120 }, { name := "notes.txt", size := 7 },
    { name := "SOUTH.KML", size := 90 }, { name := "east.kml", size := 310 } ]

/-! ## Theorems: `uploadKMLFiles` -/

theorem waypointStep_trace (flightParams : FlightParams) (wp : Nat → Fetched Ros2Result)
    (i : Nat) (filename : String) (r : Run) :
    (waypointStep flightParams filename (wp i) r).trace
      = r.trace ++ perFileEffects flightParams wp (i, filename) := by
  unfold waypointStep perFileEffects
  rcases wp i with m | ⟨ok, st, body⟩
  · simp [ros2Catch, appendToTerminal, issue, generateWaypointRequest, ros2OutcomeEntry]
  · cases ok <;> cases body <;>
      simp [ros2Catch, appendToTerminal, issue, generateWaypointRequest, ros2OutcomeEntry]

theorem waypointLoop_trace (flightParams : FlightParams) (wp : Nat → Fetched Ros2Result)
    (names : List String) :
    ∀ (i : Nat) (r : Run),
      (waypointLoop flightParams wp i names r).trace
        = r.trace ++ (names.enumFrom i).flatMap (perFileEffects flightParams wp) := by
  induction names with
  | nil => intro i r; simp [waypointLoop]
  | cons filename rest ih =>
      intro i r
      simp only [waypointLoop, List.enumFrom_cons, List.flatMap_cons]
      rw [ih, waypointStep_trace, List.append_assoc]

theorem selection_length_ne_zero (s : State) (h : s.selectedFiles ≠ []) :
    ¬ s.selectedFiles.length = 0 := by
  intro h0
  exact h (List.length_eq_zero.mp h0)

theorem uploadKMLFiles_trace_ok (s : State) (statusText message : String)
    (names : List String) (wp : Nat → Fetched Ros2Result) (h : s.selectedFiles ≠ []) :
    (uploadKMLFiles (.response true statusText (.value ⟨message, .ok names⟩)) wp s).trace
      = [ Effect.log "⬆️ Starting KML file upload...",
          Effect.fetch (uploadRequest s.selectedFiles),
          Effect.log ("✅ KML upload successful: " ++ message) ]
        ++ (names.enumFrom 0).flatMap (perFileEffects s.flightParams wp) := by
  simp [uploadKMLFiles, selection_length_ne_zero s h, uploadFinally, waypointLoop_trace,
    appendToTerminal, issue]

theorem waypointRequests_perFile (flightParams : FlightParams) (wp : Nat → Fetched Ros2Result)
    (names : List String) :
    ∀ i : Nat,
      waypointRequests ((names.enumFrom i).flatMap (perFileEffects flightParams wp))
        = names.map (generateWaypointRequest flightParams) := by
  induction names with
  | nil => intro i; simp [waypointRequests]
  | cons filename rest ih =>
      intro i
      have h := ih (i + 1)
      simp only [waypointRequests] at h ⊢
      simp only [List.enumFrom_cons, List.flatMap_cons, List.filterMap_append, h]
      simp [perFileEffects, generateWaypointRequest]

/-- C1: when the selection is not empty and the upload response is OK with
`uploadedFileNames = names`, then whatever the per-file outcomes `wp` are, the
requests sent to `/generate_waypoint` are, in order, one POST per name `f` of
`names` with body `{filename: f, params: {...flightParams, kml_file: f}}`:
as many requests as names, and the six flight-parameter fields of every body
are those of the state. -/
theorem uploadKMLFiles_waypoint_requests (s : State) (statusText message : String)
    (names : List String) (wp : Nat → Fetched Ros2Result) (h : s.selectedFiles ≠ []) :
    waypointRequests
        (uploadKMLFiles (.response true statusText (.value ⟨message, .ok names⟩)) wp s).trace
      = names.map (fun f =>
          { url := "http://127.0.0.1:9080/generate_waypoint", method := "POST",
            body := .waypoint
              { filename := f, params := { toFlightParams := s.flightParams, kml_file := f } } })
    ∧ (waypointRequests
        (uploadKMLFiles (.response true statusText (.value ⟨message, .ok names⟩)) wp s).trace).length
      = names.length
    ∧ ∀ request ∈ waypointRequests
        (uploadKMLFiles (.response true statusText (.value ⟨message, .ok names⟩)) wp s).trace,
        ∃ f ∈ names, ∃ params : WaypointParams,
          request.body = .waypoint { filename := f, params := params }
          ∧ params.kml_file = f
          ∧ params.line_spacing = s.flightParams.line_spacing
          ∧ params.flight_altitude = s.flightParams.flight_altitude
          ∧ params.flight_velocity = s.flightParams.flight_velocity
          ∧ params.fence_buffer = s.flightParams.fence_buffer
          ∧ params.optimize_angle = s.flightParams.optimize_angle
          ∧ params.angle = s.flightParams.angle := by
  have key :
      waypointRequests
          (uploadKMLFiles (.response true statusText (.value ⟨message, .ok names⟩)) wp s).trace
        = names.map (generateWaypointRequest s.flightParams) := by
    rw [uploadKMLFiles_trace_ok s statusText message names wp h]
    have hl := waypointRequests_perFile s.flightParams wp names 0
    simp only [waypointRequests] at hl ⊢
    rw [List.filterMap_append, hl]
    simp [uploadRequest]
  refine ⟨?_, ?_, ?_⟩
  · rw [key]; rfl
  · rw [key, List.length_map]
  · intro request hreq
    rw [key, List.mem_map] at hreq
    obtain ⟨f, hf, rfl⟩ := hreq
    exact ⟨f, hf, { toFlightParams := s.flightParams, kml_file := f }, rfl, rfl, rfl, rfl, rfl,
      rfl, rfl, rfl⟩

/-- Witness of C1: two selected files, two uploaded names, the first request
failing: two requests, in the order of the names. -/
theorem uploadKMLFiles_waypoint_requests_witness :
    State.twoFiles.selectedFiles ≠ []
    ∧ (waypointRequests
        (uploadKMLFiles
          (.response true "OK" (.value ⟨"2 files", .ok ["field1_x.kml", "field2_x.kml"]⟩))
          firstFails State.twoFiles).trace).length = 2 :=
  ⟨by decide,
    (uploadKMLFiles_waypoint_requests State.twoFiles "OK" "2 files"
      ["field1_x.kml", "field2_x.kml"] firstFails (by decide)).2.1⟩

/-- C2: when the selection is not empty and the request to `/upload-kml` ends
in a transport failure or in a response that is not OK, the effects of
`uploadKMLFiles` are exactly the start entry, the upload request and one
failure entry; no request goes to `/generate_waypoint`. -/
theorem uploadKMLFiles_upload_failure (s : State) (wp : Nat → Fetched Ros2Result)
    (h : s.selectedFiles ≠ []) :
    (∀ message : String,
      (uploadKMLFiles (.rejected message) wp s).trace
        = [ Effect.log "⬆️ Starting KML file upload...",
            Effect.fetch
              { url := "http://127.0.0.1:9080/upload-kml", method := "POST",
                body := .formData s.selectedFiles },
            Effect.log ("❌ KML upload failed: " ++ message) ]
      ∧ waypointRequests (uploadKMLFiles (.rejected message) wp s).trace = [])
    ∧ (∀ (statusText : String) (body : Parsed UploadResult),
      (uploadKMLFiles (.response false statusText body) wp s).trace
        = [ Effect.log "⬆️ Starting KML file upload...",
            Effect.fetch
              { url := "http://127.0.0.1:9080/upload-kml", method := "POST",
                body := .formData s.selectedFiles },
            Effect.log ("❌ KML upload failed: " ++ ("KML upload failed: " ++ statusText)) ]
      ∧ waypointRequests (uploadKMLFiles (.response false statusText body) wp s).trace = []) := by
  have h0 := selection_length_ne_zero s h
  constructor
  · intro message
    simp [uploadKMLFiles, h0, uploadFinally, uploadCatch, appendToTerminal, issue,
      uploadRequest, waypointRequests]
  · intro statusText body
    simp [uploadKMLFiles, h0, uploadFinally, uploadCatch, appendToTerminal, issue,
      uploadRequest, waypointRequests]

/-- Witness of C2: two selected files and an upload answered with a status
that is not OK: three effects, the last one the failure entry. -/
theorem uploadKMLFiles_upload_failure_witness :
    State.twoFiles.selectedFiles ≠ []
    ∧ logEntries
        (uploadKMLFiles (.response false "Internal Server Error" (.failed "no body"))
          firstFails State.twoFiles).trace
      = [ "⬆️ Starting KML file upload...",
          "❌ KML upload failed: KML upload failed: Internal Server Error" ] := by
  refine ⟨by decide, ?_⟩
  rw [((uploadKMLFiles_upload_failure State.twoFiles firstFails (by decide)).2
    "Internal Server Error" (.failed "no body")).1]
  decide

/-- C3: when the selection is not empty and the upload response is OK with
`uploadedFileNames = names`, the effects of `uploadKMLFiles` are the start
entry, the upload request, the upload-success entry and then, for each name in
order, three effects in a row: the entry `Sending ROS2 message for KML: f...`,
the request for `f`, and the one outcome entry of `f` (the success entry when
its response is OK and parses, an error entry otherwise).  So the request of a
file comes after the outcome entry of the file before it. -/
theorem uploadKMLFiles_sequential_trace (s : State) (statusText message : String)
    (names : List String) (wp : Nat → Fetched Ros2Result) (h : s.selectedFiles ≠ []) :
    (uploadKMLFiles (.response true statusText (.value ⟨message, .ok names⟩)) wp s).trace
      = [ Effect.log "⬆️ Starting KML file upload...",
          Effect.fetch
            { url := "http://127.0.0.1:9080/upload-kml", method := "POST",
              body := .formData s.selectedFiles },
          Effect.log ("✅ KML upload successful: " ++ message) ]
        ++ (names.enumFrom 0).flatMap (fun indexed =>
          [ Effect.log ("Sending ROS2 message for KML: " ++ indexed.2 ++ "..."),
            Effect.fetch
              { url := "http://127.0.0.1:9080/generate_waypoint", method := "POST",
                body := .waypoint
                  { filename := indexed.2
                    params := { toFlightParams := s.flightParams, kml_file := indexed.2 } } },
            Effect.log (ros2OutcomeEntry indexed.2 (wp indexed.1)) ]) := by
  rw [uploadKMLFiles_trace_ok s statusText message names wp h]
  rfl

/-- Witness of C3, the scenario of the specification: names
`field1_x.kml`, `field2_x.kml`, the first request failing and the second
succeeding; the error entry of the first file stands before the announcement
and the success entry of the second. -/
theorem uploadKMLFiles_sequential_trace_witness :
    State.twoFiles.selectedFiles ≠ []
    ∧ logEntries
        (uploadKMLFiles
          (.response true "OK" (.value ⟨"2 files", .ok ["field1_x.kml", "field2_x.kml"]⟩))
          firstFails State.twoFiles).trace
      = [ "⬆️ Starting KML file upload...",
          "✅ KML upload successful: 2 files",
          "Sending ROS2 message for KML: field1_x.kml...",
          "❌ Error sending ROS2 message for field1_x.kml: Failed to fetch",
          "Sending ROS2 message for KML: field2_x.kml...",
          "✅ ROS2 message sent for field2_x.kml: success" ] := by
  refine ⟨by decide, ?_⟩
  rw [uploadKMLFiles_sequential_trace State.twoFiles "OK" "2 files"
    ["field1_x.kml", "field2_x.kml"] firstFails (by decide)]
  decide

/-- C4: when the selection is not empty and the upload response is OK with a
list `uploadedFileNames = names`, then whatever the per-file outcomes `wp`
are, the final state has the modal closed, the selection empty and the
in-progress flag cleared. -/
theorem uploadKMLFiles_final_state (s : State) (statusText message : String)
    (names : List String) (wp : Nat → Fetched Ros2Result) (h : s.selectedFiles ≠ []) :
    (uploadKMLFiles (.response true statusText (.value ⟨message, .ok names⟩)) wp s).state.showUploadModal
      = false
    ∧ (uploadKMLFiles (.response true statusText (.value ⟨message, .ok names⟩)) wp s).state.selectedFiles
      = []
    ∧ (uploadKMLFiles (.response true statusText (.value ⟨message, .ok names⟩)) wp s).state.uploadingKML
      = false := by
  simp [uploadKMLFiles, selection_length_ne_zero s h, uploadFinally]

/-- Witness of C4: two uploaded names whose requests both fail in transport;
the modal was open and is closed, the selection is empty. -/
theorem uploadKMLFiles_final_state_witness :
    State.twoFiles.selectedFiles ≠ []
    ∧ State.twoFiles.showUploadModal = true
    ∧ (uploadKMLFiles
        (.response true "OK" (.value ⟨"2 files", .ok ["field1_x.kml", "field2_x.kml"]⟩))
        (fun _ => .rejected "Failed to fetch") State.twoFiles).state.showUploadModal = false
    ∧ (uploadKMLFiles
        (.response true "OK" (.value ⟨"2 files", .ok ["field1_x.kml", "field2_x.kml"]⟩))
        (fun _ => .rejected "Failed to fetch") State.twoFiles).state.selectedFiles = [] :=
  ⟨by decide, by decide,
    (uploadKMLFiles_final_state State.twoFiles "OK" "2 files" ["field1_x.kml", "field2_x.kml"]
      (fun _ => .rejected "Failed to fetch") (by decide)).1,
    (uploadKMLFiles_final_state State.twoFiles "OK" "2 files" ["field1_x.kml", "field2_x.kml"]
      (fun _ => .rejected "Failed to fetch") (by decide)).2.1⟩

/-! ## Theorems: `fetchImageInfo` -/

theorem fetchImageInfoResume_loaded_of_succeeded {V : Type} (rt : JsRuntime V)
    (outcome : Fetched (Payload V)) (o : Overlay) (h : fetchSucceeded outcome = true) :
    (fetchImageInfoResume rt outcome o).loaded = "true" := by
  rcases outcome with m | ⟨ok, st, body⟩
  · simp [fetchSucceeded] at h
  · cases body with
    | failed m => simp [fetchSucceeded] at h
    | value data => cases data <;> simp [fetchImageInfoResume]

theorem Card.successes_resolve {V : Type} (rt : JsRuntime V) (imageName : String) (c : Card V)
    (outcome : Fetched (Payload V)) (hz : ¬ c.inFlight = 0) :
    (c.step rt imageName (.resolve outcome)).successes
      = c.successes + (if fetchSucceeded outcome = true then 1 else 0) := by
  by_cases hok : fetchSucceeded outcome = true
  · simp [Card.step, hz, Card.successes, List.filter_append, hok]
  · simp [Card.step, hz, Card.successes, List.filter_append, hok]

theorem Card.settled_step {V : Type} (rt : JsRuntime V) (imageName : String) (c : Card V)
    (e : CardEvent V) (hc : c.Settled)
    (he : e = CardEvent.pointerEnter → c.inFlight = 0) :
    (c.step rt imageName e).Settled := by
  obtain ⟨hsum, hload⟩ := hc
  cases e with
  | pointerEnter =>
      have h0 := he rfl
      by_cases hl : c.overlay.loaded = "true"
      · simpa [Card.step, hl, Card.Settled] using And.intro hsum hload
      · have hs : c.successes = 0 := by
          by_contra hne
          exact hl (hload (by omega))
        have hsucc : (c.step rt imageName .pointerEnter).successes = c.successes := by
          simp [Card.step, hl, Card.successes]
        have hfl : (c.step rt imageName .pointerEnter).inFlight = c.inFlight + 1 := by
          simp [Card.step, hl]
        unfold Card.Settled
        rw [hsucc, hfl]
        exact ⟨by omega, fun h1 => by omega⟩
  | resolve outcome =>
      by_cases hz : c.inFlight = 0
      · simpa [Card.step, hz, Card.Settled] using And.intro hsum hload
      · have hsucc := Card.successes_resolve rt imageName c outcome hz
        have hfl : (c.step rt imageName (.resolve outcome)).inFlight = c.inFlight - 1 := by
          simp [Card.step, hz]
        have hov : (c.step rt imageName (.resolve outcome)).overlay
            = fetchImageInfoResume rt outcome c.overlay := by
          simp [Card.step, hz]
        unfold Card.Settled
        rw [hsucc, hfl, hov]
        by_cases hok : fetchSucceeded outcome = true
        · simp only [hok, if_true]
          exact ⟨by omega, fun _ => fetchImageInfoResume_loaded_of_succeeded rt outcome _ hok⟩
        · simp only [hok]
          exact ⟨by simp; omega, fun h1 => by simp at h1; omega⟩

theorem Card.settled_run {V : Type} (rt : JsRuntime V) (imageName : String)
    (events : List (CardEvent V)) :
    ∀ c : Card V, c.Settled → Card.sequential rt imageName c events = true →
      (Card.run rt imageName c events).Settled := by
  induction events with
  | nil => intro c hc _; simpa [Card.run] using hc
  | cons e rest ih =>
      intro c hc hseq
      cases e with
      | pointerEnter =>
          simp only [Card.sequential, Bool.and_eq_true, beq_iff_eq] at hseq
          have hstep := Card.settled_step rt imageName c .pointerEnter hc (fun _ => hseq.1)
          simpa [Card.run] using ih _ hstep hseq.2
      | resolve outcome =>
          simp only [Card.sequential] at hseq
          have hstep := Card.settled_step rt imageName c (.resolve outcome) hc
            (fun h => by cases h)
          simpa [Card.run] using ih _ hstep hseq

/-- C5, as the code has it: in every sequence of events on one card in which
each pointer-enter arrives after the earlier fetches of the card have
resolved, at most one fetch succeeds; and in any state of the card, a
pointer-enter made once `loaded` is `"true"` issues no request and leaves the
card as it is. -/
theorem fetchImageInfo_at_most_one_success {V : Type} (rt : JsRuntime V) (imageName : String)
    (events : List (CardEvent V))
    (hseq : Card.sequential rt imageName (Card.initial V) events = true) :
    (Card.run rt imageName (Card.initial V) events).successes ≤ 1
    ∧ (∀ c : Card V, c.overlay.loaded = "true" → c.step rt imageName .pointerEnter = c)
    ∧ (∀ (o : Overlay) (outcome : Fetched (Payload V)), o.loaded = "true" →
        fetchImageInfo rt imageName outcome o = (o, [])) := by
  refine ⟨?_, ?_, ?_⟩
  · have hinit : (Card.initial V).Settled := by
      simp [Card.Settled, Card.initial, Card.successes]
    have h := (Card.settled_run rt imageName events (Card.initial V) hinit hseq).1
    omega
  · intro c hc
    simp [Card.step, hc]
  · intro o outcome ho
    simp [fetchImageInfo, ho]

/-- Witness of C5 as amended: a failed fetch, a retry that succeeds, then one
more pointer-enter: three interactions, two requests, one success. -/
theorem fetchImageInfo_at_most_one_success_witness :
    Card.sequential JsRuntime.ascii "det_1.jpg" (Card.initial String)
        [ .pointerEnter, .resolve (.rejected "Failed to fetch"),
          .pointerEnter, .resolve (.response true "OK" (.value (.entries sampleInfo))),
          .pointerEnter ] = true
    ∧ (Card.run JsRuntime.ascii "det_1.jpg" (Card.initial String)
        [ .pointerEnter, .resolve (.rejected "Failed to fetch"),
          .pointerEnter, .resolve (.response true "OK" (.value (.entries sampleInfo))),
          .pointerEnter ]).successes ≤ 1 :=
  ⟨by decide,
    (fetchImageInfo_at_most_one_success JsRuntime.ascii "det_1.jpg"
      [ .pointerEnter, .resolve (.rejected "Failed to fetch"),
        .pointerEnter, .resolve (.response true "OK" (.value (.entries sampleInfo))),
        .pointerEnter ] (by decide)).1⟩

/-- C5 as stated fails: two pointer-enters arrive before the first fetch has
resolved; both calls pass the `loaded` test, two requests are issued and both
succeed. -/
theorem fetchImageInfo_two_successes :
    (Card.run JsRuntime.ascii "det_1.jpg" (Card.initial String)
        [ .pointerEnter, .pointerEnter,
          .resolve (.response true "OK" (.value (.entries sampleInfo))),
          .resolve (.response true "OK" (.value (.entries sampleInfo))) ]).issued
      = [imageInfoRequest "det_1.jpg", imageInfoRequest "det_1.jpg"]
    ∧ (Card.run JsRuntime.ascii "det_1.jpg" (Card.initial String)
        [ .pointerEnter, .pointerEnter,
          .resolve (.response true "OK" (.value (.entries sampleInfo))),
          .resolve (.response true "OK" (.value (.entries sampleInfo))) ]).successes = 2
    ∧ ¬ (Card.run JsRuntime.ascii "det_1.jpg" (Card.initial String)
        [ .pointerEnter, .pointerEnter,
          .resolve (.response true "OK" (.value (.entries sampleInfo))),
          .resolve (.response true "OK" (.value (.entries sampleInfo))) ]).successes ≤ 1 := by
  decide

/-- C6: a transport failure and an unparseable body show the placeholder and
leave `loaded` as it was, so the next pointer-enter fetches again; but a body
that parses to `null` sets `loaded` to `"true"` before `Object.keys` throws:
the card shows the placeholder with `loaded` equal to `"true"`, and the next
call of `fetchImageInfo` issues no request. -/
theorem fetchImageInfo_error_path {V : Type} (rt : JsRuntime V) (imageName : String) :
    (∀ message : String,
      fetchImageInfo rt imageName (.rejected message) Overlay.initial
        = ({ loaded := "false", innerHTML := errorHtml }, [imageInfoRequest imageName]))
    ∧ (∀ (ok : Bool) (statusText message : String),
      fetchImageInfo rt imageName (.response ok statusText (.failed message)) Overlay.initial
        = ({ loaded := "false", innerHTML := errorHtml }, [imageInfoRequest imageName]))
    ∧ (∀ (ok : Bool) (statusText : String),
      fetchImageInfo rt imageName (.response ok statusText (.value .null)) Overlay.initial
        = ({ loaded := "true",
             innerHTML := "<div class=\"error\">Failed to load detection info</div>" },
           [imageInfoRequest imageName]))
    ∧ (∀ (ok : Bool) (statusText : String) (next : Fetched (Payload V)),
      (fetchImageInfo rt imageName next
        (fetchImageInfo rt imageName (.response ok statusText (.value .null)) Overlay.initial).1).2
        = []) := by
  refine ⟨?_, ?_, ?_, ?_⟩
  · intro message; rfl
  · intro ok statusText message; rfl
  · intro ok statusText; rfl
  · intro ok statusText next; rfl

/-- C7: for a response mapping with at least one entry, given to
`fetchImageInfo` on a card that is not loaded, the overlay is the
concatenation, in entry order, of one row for each entry whose key is not
`Crop Path`; the row shows the key with every underscore replaced by a space
and then upper-cased, and the string conversion of the value. -/
theorem fetchImageInfo_rows {V : Type} (rt : JsRuntime V) (imageName : String) (ok : Bool)
    (statusText : String) (kv : List (String × V)) (o : Overlay)
    (hkv : kv ≠ []) (ho : o.loaded ≠ "true") :
    (fetchImageInfo rt imageName (.response ok statusText (.value (.entries kv))) o).1.innerHTML
      = String.join
          ((kv.filter fun entry => entry.1 ≠ "Crop Path").map fun entry =>
            "<div class=\"info-row\"><span class=\"key\">"
              ++ rt.toUpperCase (replaceUnderscores entry.1)
              ++ ":</span> <span class=\"value\">" ++ rt.toStr entry.2 ++ "</span></div>")
    ∧ ∀ key : String,
        (replaceUnderscores key).data = key.data.map (fun c => if c = '_' then ' ' else c)
        ∧ '_' ∉ (replaceUnderscores key).data := by
  constructor
  · have hlen : ¬ kv.length = 0 := fun h0 => hkv (List.length_eq_zero.mp h0)
    simp only [fetchImageInfo, ho, if_false, fetchImageInfoResume, overlayHtml, hlen]
    rfl
  · intro key
    refine ⟨rfl, ?_⟩
    simp only [replaceUnderscores, List.mem_map, not_exists, not_and]
    intro c _ hc
    by_cases h : c = '_'
    · simp [h] at hc
    · simp [h] at hc

/-- Witness of C7: three entries, the middle one the hidden path; two rows,
in order, keys upper-cased with the underscore replaced, values as given. -/
theorem fetchImageInfo_rows_witness :
    sampleInfo ≠ [] ∧ Overlay.initial.loaded ≠ "true"
    ∧ (fetchImageInfo JsRuntime.ascii "det_1.jpg"
        (.response true "OK" (.value (.entries sampleInfo))) Overlay.initial).1.innerHTML
      = "<div class=\"info-row\"><span class=\"key\">CLASS NAME:</span> <span class=\"value\">car</span></div><div class=\"info-row\"><span class=\"key\">CONF:</span> <span class=\"value\">0.9</span></div>" := by
  refine ⟨by decide, by decide, ?_⟩
  rw [(fetchImageInfo_rows JsRuntime.ascii "det_1.jpg" true "OK" sampleInfo Overlay.initial
    (by decide) (by decide)).1]
  rfl

/-! ## Theorems: the command dispatcher -/

theorem mentions_middle (before needle after : String) :
    Mentions (before ++ needle ++ after) needle :=
  ⟨before.data, after.data, by simp [String.data_append]⟩

theorem mentions_middle_then (before needle mid after : String) :
    Mentions (before ++ needle ++ mid ++ after) needle :=
  ⟨before.data, mid.data ++ after.data, by simp [String.data_append, List.append_assoc]⟩

theorem sendDroneCommand_trace (command : String) (outcome : Fetched CommandResult) (s : State) :
    ∃ outcomeEntry : String,
      (sendDroneCommand command outcome s).trace
        = [ Effect.log ("Sending drone command: " ++ command ++ "..."),
            Effect.fetch (missionCommandRequest command),
            Effect.log outcomeEntry ]
      ∧ Mentions outcomeEntry command := by
  rcases outcome with m | ⟨ok, st, body⟩
  · exact ⟨"❌ Error sending drone command '" ++ command ++ "': " ++ m,
      by simp [sendDroneCommand, appendToTerminal, issue], mentions_middle_then _ _ _ _⟩
  · cases body with
    | failed m =>
        exact ⟨"❌ Error sending drone command '" ++ command ++ "': " ++ m,
          by simp [sendDroneCommand, appendToTerminal, issue], mentions_middle_then _ _ _ _⟩
    | value result =>
        by_cases hs : result.status = "success"
        · exact ⟨"✅ Drone command '" ++ command ++ "' successful: " ++ result.message,
            by simp [sendDroneCommand, appendToTerminal, issue, hs],
            mentions_middle_then _ _ _ _⟩
        · exact ⟨"❌ Drone command '" ++ command ++ "' failed: " ++ result.message,
            by simp [sendDroneCommand, appendToTerminal, issue, hs],
            mentions_middle_then _ _ _ _⟩

theorem startMission_trace (outcome : Fetched CommandResult) (s : State) :
    ∃ outcomeEntry : String,
      (startMission outcome s).trace
        = [ Effect.log "🎯 Starting mission...\n",
            Effect.fetch (missionCommandRequest "mission_start"),
            Effect.log outcomeEntry ]
      ∧ ((∃ m, outcomeEntry = "✅ Mission started successfully!\n" ++ m)
          ∨ (∃ m, outcomeEntry = "❌ Mission start failed: " ++ m)
          ∨ (∃ m, outcomeEntry = "❌ Error starting mission: " ++ m)) := by
  rcases outcome with m | ⟨ok, st, body⟩
  · exact ⟨_, by simp [startMission, appendToTerminal, issue], Or.inr (Or.inr ⟨m, rfl⟩)⟩
  · cases body with
    | failed m =>
        exact ⟨_, by simp [startMission, appendToTerminal, issue], Or.inr (Or.inr ⟨m, rfl⟩)⟩
    | value result =>
        by_cases hs : result.status = "success"
        · exact ⟨_, by simp [startMission, appendToTerminal, issue, hs],
            Or.inl ⟨result.message, rfl⟩⟩
        · exact ⟨_, by simp [startMission, appendToTerminal, issue, hs],
            Or.inr (Or.inl ⟨result.message, rfl⟩)⟩

/-- C8, as the code has it: for each of the five commands, one invocation
has exactly three effects, in this order: a start entry, one POST to
`/send_mission_command` with body `{command: c}`, one outcome entry.  For
`arm`, `disarm`, `rtl` and `land` both entries contain the command name; for
`mission_start` the start entry is the fixed text `Starting mission...` and
the outcome entry is one of the three fixed mission texts followed by the
message, none of them built from the command name. -/
theorem dispatch_trace (cmd : Command) (outcome : Fetched CommandResult) (s : State) :
    ∃ startEntry outcomeEntry : String,
      (dispatch cmd outcome s).trace
        = [ Effect.log startEntry,
            Effect.fetch
              { url := "http://127.0.0.1:9080/send_mission_command", method := "POST",
                body := .command cmd.tag },
            Effect.log outcomeEntry ]
      ∧ (cmd ≠ Command.mission_start →
          Mentions startEntry cmd.tag ∧ Mentions outcomeEntry cmd.tag)
      ∧ (cmd = Command.mission_start →
          startEntry = "🎯 Starting mission...\n"
          ∧ ((∃ m, outcomeEntry = "✅ Mission started successfully!\n" ++ m)
              ∨ (∃ m, outcomeEntry = "❌ Mission start failed: " ++ m)
              ∨ (∃ m, outcomeEntry = "❌ Error starting mission: " ++ m))) := by
  by_cases hc : cmd = Command.mission_start
  · subst hc
    obtain ⟨entry, htrace, hforms⟩ := startMission_trace outcome s
    exact ⟨_, entry, htrace, fun h => absurd rfl h, fun _ => ⟨rfl, hforms⟩⟩
  · obtain ⟨entry, htrace, hmention⟩ := sendDroneCommand_trace cmd.tag outcome s
    have hd : dispatch cmd outcome s = sendDroneCommand cmd.tag outcome s := by
      cases cmd <;> first | rfl | exact absurd rfl hc
    rw [hd]
    exact ⟨_, entry, htrace, fun _ => ⟨mentions_middle _ _ _, hmention⟩, fun h => absurd h hc⟩

/-- Witness of C8 as amended: `arm`, answered with a status other than
`success`; both entries contain `arm`. -/
theorem dispatch_trace_witness :
    Command.arm ≠ Command.mission_start
    ∧ ∃ startEntry outcomeEntry : String,
        logEntries
            (dispatch .arm (.response true "OK" (.value ⟨"error", "not armable"⟩))
              State.initial).trace
          = [startEntry, outcomeEntry]
        ∧ Mentions startEntry "arm" ∧ Mentions outcomeEntry "arm" := by
  refine ⟨by decide, ?_⟩
  obtain ⟨startEntry, outcomeEntry, htrace, hmention, _⟩ :=
    dispatch_trace .arm (.response true "OK" (.value ⟨"error", "not armable"⟩)) State.initial
  refine ⟨startEntry, outcomeEntry, ?_, hmention (by decide)⟩
  rw [htrace]
  rfl

/-- C8 as stated fails for `mission_start`: `startMission` answered with
success logs `Starting mission...` and `Mission started successfully!`
followed by the message; neither entry contains `mission_start`. -/
theorem startMission_entries_lack_command_name :
    logEntries
        (dispatch .mission_start (.response true "OK" (.value ⟨"success", "Mission is on"⟩))
          State.initial).trace
      = [ "🎯 Starting mission...\n", "✅ Mission started successfully!\nMission is on" ]
    ∧ ¬ Mentions "🎯 Starting mission...\n" Command.mission_start.tag
    ∧ ¬ Mentions "✅ Mission started successfully!\nMission is on" Command.mission_start.tag := by
  decide

/-! ## Theorems: `RosSidebar` -/

theorem runDeliveries_snoc (s : Snapshot) (events : List Delivery) (e : Delivery) :
    runDeliveries s (events ++ [e]) = handle (runDeliveries s events) e := by
  simp [runDeliveries, List.foldl_append]

theorem split_snoc_iff {α : Type} (l : List α) (e a b : α) :
    (∃ p q, l ++ [e] = p ++ a :: q ∧ b ∉ q)
      ↔ (e = a ∨ (e ≠ b ∧ ∃ p q, l = p ++ a :: q ∧ b ∉ q)) := by
  constructor
  · rintro ⟨p, q, heq, hb⟩
    rcases List.eq_nil_or_concat q with rfl | ⟨q', x, rfl⟩
    · left
      have h := List.append_inj' heq (by simp)
      simpa using h.2
    · right
      have heq' : l ++ [e] = (p ++ a :: q') ++ [x] := by simpa using heq
      have h := List.append_inj' heq' (by simp)
      have hex : e = x := by simpa using h.2
      subst hex
      refine ⟨?_, p, q', h.1, ?_⟩
      · intro hbe
        apply hb
        simp [hbe]
      · intro hbq
        apply hb
        simp [hbq]
  · rintro (rfl | ⟨hne, p, q, rfl, hb⟩)
    · exact ⟨l, [], rfl, by simp⟩
    · refine ⟨p, q ++ [e], by simp, ?_⟩
      simp only [List.mem_append, List.mem_singleton, not_or]
      exact ⟨hb, fun h => hne h.symm⟩

/-- C9, as the code has it: after any sequence of deliveries to the mounted
component, `rosConnected` is true exactly when a `connection` event has
occurred and no `close` event has occurred since; it is false initially; an
`error` event, like a battery or state message, leaves the flag as it is. -/
theorem rosConnected_iff (events : List Delivery) :
    ((runDeliveries Snapshot.initial events).rosConnected = true
      ↔ ∃ before after, events = before ++ Delivery.ros .connection :: after
          ∧ Delivery.ros .close ∉ after)
    ∧ (runDeliveries Snapshot.initial []).rosConnected = false
    ∧ (∀ s : Snapshot, (handle s (.ros .error)).rosConnected = s.rosConnected) := by
  refine ⟨?_, rfl, fun s => rfl⟩
  induction events using List.reverseRecOn with
  | nil => simp [runDeliveries, Snapshot.initial]
  | append_singleton l e ih =>
      rw [runDeliveries_snoc, split_snoc_iff, ← ih]
      rcases e with (_ | _ | _) | p | m <;> simp [handle, onRos, onBattery, onState]

/-- C9 as stated fails: after a `connection` event followed by an `error`
event the flag is still true. -/
theorem rosConnected_after_error :
    (runDeliveries Snapshot.initial [.ros .connection, .ros .error]).rosConnected = true := by
  decide

theorem Sidebar.step_deliver_keeps (c : Sidebar) (d : Delivery) :
    (c.step (.deliver d)).registry = c.registry
    ∧ (c.step (.deliver d)).calls = c.calls
    ∧ (c.step (.deliver d)).mounted = c.mounted := by
  rcases d with e | p | m <;> simp only [Sidebar.step] <;> split <;> simp [Sidebar.invoke]

theorem Sidebar.deliveries_keep_registry (ds : List Delivery) :
    ∀ c : Sidebar,
      (Sidebar.run c (ds.map LifeEvent.deliver)).registry = c.registry
      ∧ (Sidebar.run c (ds.map LifeEvent.deliver)).calls = c.calls
      ∧ (Sidebar.run c (ds.map LifeEvent.deliver)).mounted = c.mounted := by
  induction ds with
  | nil => intro c; simp [Sidebar.run]
  | cons d rest ih =>
      intro c
      obtain ⟨k1, k2, k3⟩ := Sidebar.step_deliver_keeps c d
      have h := ih (c.step (.deliver d))
      simp only [Sidebar.run, List.map_cons, List.foldl_cons] at h ⊢
      exact ⟨h.1.trans k1, h.2.1.trans k2, h.2.2.trans k3⟩

theorem Sidebar.deliveries_unmounted (ds : List Delivery) :
    ∀ c : Sidebar, c.mounted = false →
      (Sidebar.run c (ds.map LifeEvent.deliver)).snapshot = c.snapshot := by
  induction ds with
  | nil => intro c _; simp [Sidebar.run]
  | cons d rest ih =>
      intro c hc
      have hsnap : (c.step (.deliver d)).snapshot = c.snapshot := by
        rcases d with e | p | m <;> simp only [Sidebar.step] <;> split <;>
          simp [Sidebar.invoke, hc]
      have hm : (c.step (.deliver d)).mounted = false :=
        (Sidebar.step_deliver_keeps c d).2.2.trans hc
      have h := ih (c.step (.deliver d)) hm
      simp only [Sidebar.run, List.map_cons, List.foldl_cons] at h ⊢
      exact h.trans hsnap

theorem Sidebar.deliveries_ran (ds : List Delivery) :
    ∀ c : Sidebar,
      c.registry = { listeners := [.connection, .error, .close], subscribed := [] } →
      (Sidebar.run c (ds.map LifeEvent.deliver)).ran = c.ran ++ ds.filter Delivery.isRos := by
  induction ds with
  | nil => intro c _; simp [Sidebar.run]
  | cons d rest ih =>
      intro c hc
      have hreg : (c.step (.deliver d)).registry = c.registry :=
        (Sidebar.step_deliver_keeps c d).1
      have hran : (c.step (.deliver d)).ran = c.ran ++ [d].filter Delivery.isRos := by
        rcases d with e | p | m
        · cases e <;> simp [Sidebar.step, Sidebar.invoke, hc, Delivery.isRos]
        · simp [Sidebar.step, hc, Delivery.isRos]
        · simp [Sidebar.step, hc, Delivery.isRos]
      have h := ih (c.step (.deliver d)) (hreg.trans hc)
      simp only [Sidebar.run, List.map_cons, List.foldl_cons] at h ⊢
      rw [h, hran, List.append_assoc, ← List.filter_append]
      rfl

theorem Sidebar.run_append (c : Sidebar) (xs ys : List LifeEvent) :
    Sidebar.run c (xs ++ ys) = Sidebar.run (Sidebar.run c xs) ys := by
  simp [Sidebar.run, List.foldl_append]

theorem Sidebar.cycle_split (ds : List Delivery) :
    Sidebar.run Sidebar.initial (.mount :: ds.map .deliver ++ [.unmount])
      = (Sidebar.run (Sidebar.initial.step .mount) (ds.map .deliver)).step .unmount := by
  have h : (LifeEvent.mount :: ds.map LifeEvent.deliver ++ [LifeEvent.unmount])
      = [LifeEvent.mount] ++ (ds.map LifeEvent.deliver ++ [LifeEvent.unmount]) := rfl
  rw [h, Sidebar.run_append, Sidebar.run_append]
  rfl

/-- C10: in every cycle of mount, deliveries `ds` and unmount, the calls the
component makes on `roslib` are exactly: one `new ROSLIB.Ros`, the three
`ros.on`, the two topics and one `subscribe` for each of `/mavros/battery`
and `/mavros/state` at mount; then one `unsubscribe` for each of the two
topics and one `close` at unmount.  After the unmount neither topic has a
callback left, so the only callbacks that still run are the listeners given
to `ros.on`, and whatever is delivered later, the snapshot (`rosConnected`,
`mode`, `battery`) stays as it was at the unmount. -/
theorem sidebar_mount_unmount (ds later : List Delivery) :
    (Sidebar.run Sidebar.initial [.mount]).calls
      = [ .newRos "ws://localhost:9090", .on .connection, .on .error, .on .close,
          .newTopic "/mavros/battery" "sensor_msgs/BatteryState",
          .newTopic "/mavros/state" "mavros_msgs/State",
          .subscribe "/mavros/battery", .subscribe "/mavros/state" ]
    ∧ (Sidebar.run Sidebar.initial (.mount :: ds.map .deliver ++ [.unmount])).calls
      = [ .newRos "ws://localhost:9090", .on .connection, .on .error, .on .close,
          .newTopic "/mavros/battery" "sensor_msgs/BatteryState",
          .newTopic "/mavros/state" "mavros_msgs/State",
          .subscribe "/mavros/battery", .subscribe "/mavros/state",
          .unsubscribe "/mavros/battery", .unsubscribe "/mavros/state", .close ]
    ∧ (Sidebar.run Sidebar.initial (.mount :: ds.map .deliver ++ [.unmount])).registry
      = { listeners := [.connection, .error, .close], subscribed := [] }
    ∧ (Sidebar.run (Sidebar.run Sidebar.initial (.mount :: ds.map .deliver ++ [.unmount]))
        (later.map .deliver)).snapshot
      = (Sidebar.run Sidebar.initial (.mount :: ds.map .deliver ++ [.unmount])).snapshot
    ∧ (Sidebar.run (Sidebar.run Sidebar.initial (.mount :: ds.map .deliver ++ [.unmount]))
        (later.map .deliver)).ran
      = (Sidebar.run Sidebar.initial (.mount :: ds.map .deliver ++ [.unmount])).ran
        ++ later.filter Delivery.isRos := by
  obtain ⟨hreg, hcalls, _⟩ := Sidebar.deliveries_keep_registry ds (Sidebar.initial.step .mount)
  have hregistry : (Sidebar.run Sidebar.initial (.mount :: ds.map .deliver ++ [.unmount])).registry
      = { listeners := [.connection, .error, .close], subscribed := [] } := by
    rw [Sidebar.cycle_split]
    show cleanupCalls.foldl Registry.apply
        (Sidebar.run (Sidebar.initial.step .mount) (ds.map .deliver)).registry = _
    rw [hreg]
    decide
  have hmounted :
      (Sidebar.run Sidebar.initial (.mount :: ds.map .deliver ++ [.unmount])).mounted = false := by
    rw [Sidebar.cycle_split]
    rfl
  refine ⟨by decide, ?_, hregistry, ?_, ?_⟩
  · rw [Sidebar.cycle_split]
    show (Sidebar.run (Sidebar.initial.step .mount) (ds.map .deliver)).calls ++ cleanupCalls = _
    rw [hcalls]
    rfl
  · exact Sidebar.deliveries_unmounted later _ hmounted
  · exact Sidebar.deliveries_ran later _ hregistry

/-- Witness of C10: mount, a `connection` event and a battery message, then
unmount; of a later `close` event, battery message and state message only the
`close` listener runs, and the snapshot is still the one of the unmount:
connected, battery 1, no mode. -/
theorem sidebar_mount_unmount_witness :
    (Sidebar.run
        (Sidebar.run Sidebar.initial
          (.mount :: [Delivery.ros .connection, Delivery.battery 1].map .deliver ++ [.unmount]))
        ([Delivery.ros .close, Delivery.battery 0, Delivery.state "AUTO"].map .deliver)).snapshot
      = { battery := some 1, mode := none, rosConnected := true }
    ∧ (Sidebar.run
        (Sidebar.run Sidebar.initial
          (.mount :: [Delivery.ros .connection, Delivery.battery 1].map .deliver ++ [.unmount]))
        ([Delivery.ros .close, Delivery.battery 0, Delivery.state "AUTO"].map .deliver)).ran
      = [.ros .connection, .battery 1, .ros .close] := by
  have h := sidebar_mount_unmount [Delivery.ros .connection, Delivery.battery 1]
    [Delivery.ros .close, Delivery.battery 0, Delivery.state "AUTO"]
  refine ⟨h.2.2.2.1.trans ?_, h.2.2.2.2.trans ?_⟩
  · decide
  · decide

/-! ## Theorems: the empty batch and the form handlers -/

/-- C11, as the code has it: for an empty selection `uploadKMLFiles` issues
no request and appends nothing to the terminal; its only effect is to set
`kmlUploadMessage` to `Please select KML files to upload.`; the in-progress
flag, the modal, the selection and the terminal output are as before. -/
theorem uploadKMLFiles_empty_batch (upload : Fetched UploadResult)
    (wp : Nat → Fetched Ros2Result) (s : State) (h : s.selectedFiles = []) :
    uploadKMLFiles upload wp s
      = { state := { s with kmlUploadMessage := "Please select KML files to upload." }
          trace := [] }
    ∧ (uploadKMLFiles upload wp s).trace = []
    ∧ (uploadKMLFiles upload wp s).state.terminalOutput = s.terminalOutput
    ∧ (uploadKMLFiles upload wp s).state.uploadingKML = s.uploadingKML
    ∧ (uploadKMLFiles upload wp s).state.showUploadModal = s.showUploadModal
    ∧ (uploadKMLFiles upload wp s).state.selectedFiles = s.selectedFiles := by
  have h0 : s.selectedFiles.length = 0 := by rw [h]; rfl
  simp [uploadKMLFiles, h0]

/-- Witness of C11 as amended: the initial state, whose selection is empty. -/
theorem uploadKMLFiles_empty_batch_witness :
    State.initial.selectedFiles = []
    ∧ (uploadKMLFiles (.rejected "not asked") firstFails State.initial).trace = []
    ∧ (uploadKMLFiles (.rejected "not asked") firstFails State.initial).state.kmlUploadMessage
      = "Please select KML files to upload." := by
  have h := uploadKMLFiles_empty_batch (.rejected "not asked") firstFails State.initial rfl
  refine ⟨rfl, h.2.1, ?_⟩
  rw [h.1]

/-- C11 as stated fails: for the empty selection of the initial state no
entry is appended to the terminal, the terminal output is as before, and what
changes is the upload message of the modal. -/
theorem uploadKMLFiles_empty_batch_logs_nothing :
    logEntries (uploadKMLFiles (.rejected "not asked") firstFails State.initial).trace = []
    ∧ (uploadKMLFiles (.rejected "not asked") firstFails State.initial).state.terminalOutput
      = State.initial.terminalOutput
    ∧ (uploadKMLFiles (.rejected "not asked") firstFails State.initial).state.kmlUploadMessage
      ≠ State.initial.kmlUploadMessage := by
  decide

theorem FlightParams.get_set_same (p : FlightParams) (n : ParamName) (x : JsValue) :
    (p.set n x).get n = x := by
  cases n <;> rfl

theorem FlightParams.get_set_other (p : FlightParams) (n m : ParamName) (x : JsValue)
    (h : m ≠ n) : (p.set n x).get m = p.get m := by
  cases n <;> cases m <;> first | rfl | exact absurd rfl h

/-- C12: `handleParamChange(n, v)` leaves every field other than `n` as it
was and touches nothing else of the state; field `n` becomes `v` itself when
`n` is `optimize_angle`; otherwise it becomes `Number(v)` when `isNaN(v)` is
false (the coercion gives a number) and the raw `v` when `isNaN(v)` is true
(the coercion fails). -/
theorem handleParamChange_field (js : JsGlobals) (s : State) (n : ParamName) (v : JsValue) :
    (∀ m : ParamName, m ≠ n →
      (handleParamChange js n v s).flightParams.get m = s.flightParams.get m)
    ∧ (n = ParamName.optimize_angle → (handleParamChange js n v s).flightParams.get n = v)
    ∧ (n ≠ ParamName.optimize_angle → js.isNaN v = false →
        (handleParamChange js n v s).flightParams.get n = js.Number v)
    ∧ (n ≠ ParamName.optimize_angle → js.isNaN v = true →
        (handleParamChange js n v s).flightParams.get n = v)
    ∧ { handleParamChange js n v s with flightParams := s.flightParams } = s := by
  refine ⟨?_, ?_, ?_, ?_, rfl⟩
  · intro m hm
    exact FlightParams.get_set_other _ _ _ _ hm
  · intro hn
    simp [handleParamChange, FlightParams.get_set_same, hn]
  · intro hn hv
    simp [handleParamChange, FlightParams.get_set_same, hn, hv]
  · intro hn hv
    simp [handleParamChange, FlightParams.get_set_same, hn, hv]

/-- Witness of C12: on the defaults, the text `45` typed into the angle field
gives the number 45, the text `4x5` stays as typed, and the line spacing is
the default in both cases. -/
theorem handleParamChange_field_witness :
    ParamName.angle ≠ ParamName.optimize_angle
    ∧ JsGlobals.digits.isNaN (.str "45") = false
    ∧ JsGlobals.digits.isNaN (.str "4x5") = true
    ∧ (handleParamChange JsGlobals.digits .angle (.str "45") State.initial).flightParams.get .angle
      = .num 45
    ∧ (handleParamChange JsGlobals.digits .angle (.str "4x5") State.initial).flightParams.get .angle
      = .str "4x5"
    ∧ (handleParamChange JsGlobals.digits .angle (.str "45") State.initial).flightParams.get
        .line_spacing = .num 20 :=
  ⟨by decide, by decide, by decide,
    ((handleParamChange_field JsGlobals.digits State.initial .angle (.str "45")).2.2.1
      (by decide) (by decide)).trans (by simp [JsGlobals.digits]),
    (handleParamChange_field JsGlobals.digits State.initial .angle (.str "4x5")).2.2.2.1
      (by decide) (by decide),
    (handleParamChange_field JsGlobals.digits State.initial .angle (.str "45")).1
      .line_spacing (by decide)⟩

theorem endsWith_iff (name searchString : String) :
    endsWith name searchString = true ↔ ∃ stem : String, name = stem ++ searchString := by
  unfold endsWith
  rw [List.isSuffixOf_iff_suffix]
  constructor
  · rintro ⟨t, ht⟩
    refine ⟨⟨t⟩, ?_⟩
    apply String.ext
    simp [String.data_append, ht]
  · rintro ⟨stem, rfl⟩
    exact ⟨stem.data, by simp [String.data_append]⟩

/-- C13: `handleDrop` sets the selection to the files, in the order they were
dropped, whose name ends with `.kml`: a file is selected exactly when it was
dropped and its name is some text followed by `.kml`; `handleFileChange` sets
the selection to the picked list as it is. -/
theorem handleDrop_selects_kml (files : List File) (s : State) :
    (handleDrop files s).selectedFiles = files.filter (fun file => endsWith file.name ".kml")
    ∧ (handleDrop files s).selectedFiles.Sublist files
    ∧ (∀ file : File, file ∈ (handleDrop files s).selectedFiles
        ↔ file ∈ files ∧ ∃ stem : String, file.name = stem ++ ".kml")
    ∧ (handleFileChange files s).selectedFiles = files := by
  refine ⟨rfl, List.filter_sublist _, ?_, rfl⟩
  intro file
  simp only [handleDrop, List.mem_filter, endsWith_iff]

/-- Witness of C13: of four dropped files the two whose name ends with `.kml`
are selected, in the order they were dropped; `notes.txt` and `SOUTH.KML` are
not; the same four files picked with the file input are all selected. -/
theorem handleDrop_selects_kml_witness :
    (handleDrop droppedFiles State.initial).selectedFiles
      = [ { name := "north.kml", size := 120 }, { name := "east.kml", size := 310 } ]
    ∧ (handleFileChange droppedFiles State.initial).selectedFiles = droppedFiles := by
  have h := handleDrop_selects_kml droppedFiles State.initial
  refine ⟨?_, h.2.2.2⟩
  rw [h.1]
  decide

/-- C14: an empty mapping renders the `No detection data available`
placeholder, but a mapping whose only key is `Crop Path` is not empty, so the
placeholder is not used, and its one entry is filtered out: the overlay is
the empty string, with no row and no placeholder, and `loaded` is `"true"`.
A body that parses to `null` renders the error placeholder. -/
theorem fetchImageInfo_only_hidden_key {V : Type} (rt : JsRuntime V) (imageName : String)
    (ok : Bool) (statusText : String) (path : V) :
    (fetchImageInfo rt imageName (.response ok statusText (.value (.entries []))) Overlay.initial).1
      = { loaded := "true",
          innerHTML := "<div class=\"no-data\">No detection data available</div>" }
    ∧ (fetchImageInfo rt imageName
        (.response ok statusText (.value (.entries [("Crop Path", path)]))) Overlay.initial).1
      = { loaded := "true", innerHTML := "" }
    ∧ (fetchImageInfo rt imageName (.response ok statusText (.value .null)) Overlay.initial).1
      = { loaded := "true",
          innerHTML := "<div class=\"error\">Failed to load detection info</div>" } := by
  refine ⟨rfl, ?_, rfl⟩
  simp [fetchImageInfo, Overlay.initial, fetchImageInfoResume, overlayHtml, String.join]

end UIScout
